import Mathlib

/-!
Verification of the memo-generator core (`main.py` of the aimemo repository).

The development shallowly embeds the pure content of `MemoGenerator`:
the configuration record and its defaults (`_load_config`, lines 35-54),
the save path (`save_config`, lines 56-63), the prompt renderer
(`str.replace`, line 100), the three provider adapters
(`_call_openai_api` / `_call_anthropic_api` / `_call_google_api`,
lines 124-258), the setters (lines 274-292), and the file pipeline
(`generate_memo_from_file`, lines 65-94; `generate_memo`, lines 96-122).

Effects are made explicit: the network is an oracle mapping the request the
adapter would send to an outcome, the filesystem read and write outcomes are
parameters, and a Python call either returns a value or raises an uncaught
exception (`CallOutcome`).  Python floats are modelled as rationals; JSON
documents as an inductive `Json` type.  Dictionary fields that the source
always supplies in its built-in default configuration are modelled as plain
record fields; the two credential entries are modelled as `Option String`
because the source treats their absence differently (`config["llm"]["api_key"]`
raises a `KeyError` when absent, while the Google adapter reads
`config["llm"].get("google_api_key", "")`).
-/

namespace AiMemo

/-- Result of calling a Python function: it either returns a value or an
uncaught exception escapes to the caller. -/
inductive CallOutcome (α : Type) where
  | returns (val : α)
  | raises
deriving DecidableEq

/-- Severity of a log record emitted through the module logger. -/
inductive LogLevel where
  | info
  | error
deriving DecidableEq

/-- JSON documents, used for HTTP request and response bodies. -/
inductive Json where
  | null
  | bool (b : Bool)
  | num (q : ℚ)
  | str (s : String)
  | arr (elems : List Json)
  | obj (fields : List (String × Json))

/-- Python `d[key]` / `key in d` on a JSON value: a lookup that succeeds only
on objects (first binding wins, keys are unique in parsed JSON). -/
def jGet : Json → String → Option Json
  | Json.obj fields, key => fields.lookup key
  | _, _ => none

/-- Python `xs[i]` on a JSON value: succeeds only on arrays, in bounds. -/
def jIndex : Json → Nat → Option Json
  | Json.arr elems, i => elems[i]?
  | _, _ => none

/-- Extract a JSON string payload. -/
def jString : Json → Option String
  | Json.str s => some s
  | _ => none

/-- One scan step of CPython `str.replace` for a non-empty pattern, on
character lists, with an explicit fuel bound on the number of scan steps
(each step consumes at least one character, so `l.length` steps suffice). -/
def pyReplaceGo (pat rep : List Char) : List Char → Nat → List Char
  | l, 0 => l
  | [], _ + 1 => []
  | c :: cs, n + 1 =>
    if pat.isPrefixOf (c :: cs) then
      rep ++ pyReplaceGo pat rep (List.drop pat.length (c :: cs)) n
    else
      c :: pyReplaceGo pat rep cs n

/-- CPython `s.replace(pat, rep)` for a non-empty pattern: replace every
occurrence, scanning left to right, non-overlapping.  Both call sites in the
source use non-empty literal patterns (`"{transcription}"`, `"gemini-"`). -/
def pyReplace (pat rep l : List Char) : List Char :=
  pyReplaceGo pat rep l l.length

/-- Whether `pat` occurs as a contiguous sublist (for non-empty `pat`). -/
def containsSub (pat : List Char) : List Char → Bool
  | [] => false
  | c :: cs => pat.isPrefixOf (c :: cs) || containsSub pat cs

/-- The same greedy left-to-right scan as `pyReplaceGo`, recording the
decomposition instead of replacing: it returns the text before the first
occurrence of `pat` paired with the list of pieces between and after the
remaining occurrences (CPython `s.split(pat)` for non-empty `pat`). -/
def splitOnSubGo (pat : List Char) : List Char → Nat → List Char × List (List Char)
  | l, 0 => (l, [])
  | [], _ + 1 => ([], [])
  | c :: cs, n + 1 =>
    if pat.isPrefixOf (c :: cs) then
      ([], (splitOnSubGo pat (List.drop pat.length (c :: cs)) n).1
            :: (splitOnSubGo pat (List.drop pat.length (c :: cs)) n).2)
    else
      (c :: (splitOnSubGo pat cs n).1, (splitOnSubGo pat cs n).2)

/-- The greedy decomposition of `l` at the occurrences of `pat`: the
occurrence-free pieces whose joining with `pat` restores `l`. -/
def splitOnSub (pat l : List Char) : List (List Char) :=
  (splitOnSubGo pat l l.length).1 :: (splitOnSubGo pat l l.length).2

/-- Join pieces with a separator between consecutive pieces. -/
def joinPieces (sep : List Char) : List (List Char) → List Char
  | [] => []
  | [piece] => piece
  | piece :: rest => piece ++ sep ++ joinPieces sep rest

/-- Line 100: `prompt = template.replace("{transcription}", transcription)`. -/
def renderPrompt (template transcription : String) : String :=
  String.mk (pyReplace "{transcription}".data transcription.data template.data)

/-- The `config["llm"]` sub-dictionary.  `api_key` and `google_api_key` are
optional because a user-supplied `config.json` may omit them; the remaining
fields are present in every configuration the source constructs and are read
with plain indexing throughout. -/
structure LlmConfig where
  provider : String
  api_key : Option String
  google_api_key : Option String
  model : String
  temperature : ℚ
  max_tokens : Int

/-- The configuration dictionary: `llm` section, `templates["default"]`, and
the advisory `providers` catalog (`config.get("providers", {})`). -/
structure Config where
  llm : LlmConfig
  templates_default : String
  providers : List (String × List String)

/-- The built-in default configuration returned by `_load_config`
(lines 43-54): provider `openai`, empty `api_key`, no `google_api_key`
entry, no `providers` catalog. -/
def defaultConfig : Config :=
  { llm :=
    { provider := "openai"
    , api_key := some ""
    , google_api_key := none
    , model := "gpt-4o-mini"
    , temperature := 3/10
    , max_tokens := 1500 }
  , templates_default := "以下は会議の文字起こしです。これを元に議事録を作成してください。\n\n{transcription}"
  , providers := [] }

/-- Outcome of reading the configuration file: absent
(`FileNotFoundError`), syntactically invalid (`json.JSONDecodeError`), or a
successfully parsed configuration. -/
inductive ConfigRead where
  | missing
  | malformed
  | ok (cfg : Config)

/-- Lines 35-54: `_load_config` returns the parsed file, falling back to
`defaultConfig` when the file is missing or its JSON is malformed (both
exceptions are caught by the same handler). -/
def _load_config : ConfigRead → Config
  | ConfigRead.missing => defaultConfig
  | ConfigRead.malformed => defaultConfig
  | ConfigRead.ok cfg => cfg

/-- Lines 56-63: `save_config` opens and writes the file inside
`try/except Exception`; on success it logs at info level, on any write
failure it logs at error level.  In both branches the method falls through
and returns Python `None` (modelled as `CallOutcome.returns ()`); nothing
raises and no success flag is produced. -/
def save_config (writeSucceeds : Bool) : CallOutcome Unit × List LogLevel :=
  if writeSucceeds then (CallOutcome.returns (), [LogLevel.info])
  else (CallOutcome.returns (), [LogLevel.error])

/-- Lines 274-276: `set_api_key` stores into `config["llm"]["api_key"]`. -/
def set_api_key (cfg : Config) (api_key : String) : Config :=
  { cfg with llm := { cfg.llm with api_key := some api_key } }

/-- Lines 278-280: `set_google_api_key` stores into
`config["llm"]["google_api_key"]`. -/
def set_google_api_key (cfg : Config) (api_key : String) : Config :=
  { cfg with llm := { cfg.llm with google_api_key := some api_key } }

/-- Lines 282-284: `set_temperature` stores
`max(0.0, min(1.0, temperature))`. -/
def set_temperature (cfg : Config) (temperature : ℚ) : Config :=
  { cfg with llm := { cfg.llm with temperature := max 0 (min 1 temperature) } }

/-- An outbound HTTP POST as `requests.post` receives it. -/
structure HttpRequest where
  url : String
  headers : List (String × String)
  body : Json

/-- What the network produces for a request: a response with a status code
and JSON body, or a transport-level exception raised by `requests.post`. -/
inductive HttpOutcome where
  | response (status : Nat) (body : Json)
  | exn

/-- Observable behaviour of one adapter call: what the caller receives and
the HTTP request that was issued, if any. -/
structure AdapterTrace where
  outcome : CallOutcome (Option String)
  request : Option HttpRequest

/-- Lines 132-151: the OpenAI request (bearer-token header, system+user
message array, `temperature`, `max_tokens`). -/
def openaiRequest (cfg : Config) (prompt api_key : String) : HttpRequest :=
  { url := "https://api.openai.com/v1/chat/completions"
  , headers :=
      [ ("Content-Type", "application/json")
      , ("Authorization", "Bearer " ++ api_key) ]
  , body := Json.obj
      [ ("model", Json.str cfg.llm.model)
      , ("messages", Json.arr
          [ Json.obj
              [ ("role", Json.str "system")
              , ("content", Json.str "あなたは会議の音声文字起こしから議事録を作成する専門家です。") ]
          , Json.obj
              [ ("role", Json.str "user")
              , ("content", Json.str prompt) ] ])
      , ("temperature", Json.num cfg.llm.temperature)
      , ("max_tokens", Json.num (cfg.llm.max_tokens : ℚ)) ] }

/-- Line 155: `result["choices"][0]["message"]["content"]`; any missing step
raises inside the adapter `try` and is caught, yielding `None`. -/
def openaiExtract (body : Json) : Option String :=
  ((((jGet body "choices").bind (fun choices => jIndex choices 0)).bind
      (fun choice => jGet choice "message")).bind
      (fun message => jGet message "content")).bind jString

/-- Lines 124-162: `_call_openai_api`.  Reads `config["llm"]["api_key"]`
before the `try` block (an absent entry raises an uncaught `KeyError`); an
empty key returns `None` without touching the network; otherwise one POST is
made, a 200 response is parsed and anything else (non-200 status, transport
exception, unparseable body) yields `None`. -/
def _call_openai_api (cfg : Config) (prompt : String)
    (respond : HttpRequest → HttpOutcome) : AdapterTrace :=
  match cfg.llm.api_key with
  | none => { outcome := CallOutcome.raises, request := none }
  | some api_key =>
    if api_key = "" then { outcome := CallOutcome.returns none, request := none }
    else
      let req := openaiRequest cfg prompt api_key
      match respond req with
      | HttpOutcome.exn => { outcome := CallOutcome.returns none, request := some req }
      | HttpOutcome.response status body =>
        if status = 200 then
          { outcome := CallOutcome.returns (openaiExtract body), request := some req }
        else { outcome := CallOutcome.returns none, request := some req }

/-- Lines 171-192: the Anthropic request (`x-api-key` and version headers,
single user message, `temperature`, `max_tokens`). -/
def anthropicRequest (cfg : Config) (prompt api_key : String) : HttpRequest :=
  { url := "https://api.anthropic.com/v1/messages"
  , headers :=
      [ ("Content-Type", "application/json")
      , ("x-api-key", api_key)
      , ("anthropic-version", "2023-06-01") ]
  , body := Json.obj
      [ ("model", Json.str cfg.llm.model)
      , ("messages", Json.arr
          [ Json.obj
              [ ("role", Json.str "user")
              , ("content", Json.str prompt) ] ])
      , ("temperature", Json.num cfg.llm.temperature)
      , ("max_tokens", Json.num (cfg.llm.max_tokens : ℚ)) ] }

/-- Line 196: `result["content"][0]["text"]`; failures are caught inside the
adapter and yield `None`. -/
def anthropicExtract (body : Json) : Option String :=
  (((jGet body "content").bind (fun content => jIndex content 0)).bind
      (fun item => jGet item "text")).bind jString

/-- Lines 164-203: `_call_anthropic_api`.  Same control flow as the OpenAI
adapter and, notably, the same credential read
`config["llm"]["api_key"]` (line 166). -/
def _call_anthropic_api (cfg : Config) (prompt : String)
    (respond : HttpRequest → HttpOutcome) : AdapterTrace :=
  match cfg.llm.api_key with
  | none => { outcome := CallOutcome.raises, request := none }
  | some api_key =>
    if api_key = "" then { outcome := CallOutcome.returns none, request := none }
    else
      let req := anthropicRequest cfg prompt api_key
      match respond req with
      | HttpOutcome.exn => { outcome := CallOutcome.returns none, request := some req }
      | HttpOutcome.response status body =>
        if status = 200 then
          { outcome := CallOutcome.returns (anthropicExtract body), request := some req }
        else { outcome := CallOutcome.returns none, request := some req }

/-- Lines 213-235: the Google request.  The key travels as a URL query
parameter, the model id drops a leading `"gemini-"` via `str.replace`, and
`generationConfig` carries `temperature`, `maxOutputTokens` and fixed
sampling parameters. -/
def googleRequest (cfg : Config) (prompt api_key : String) : HttpRequest :=
  { url := "https://generativelanguage.googleapis.com/v1beta/models/"
        ++ String.mk (pyReplace "gemini-".data [] cfg.llm.model.data)
        ++ ":generateContent?key=" ++ api_key
  , headers := [ ("Content-Type", "application/json") ]
  , body := Json.obj
      [ ("contents", Json.arr
          [ Json.obj
              [ ("role", Json.str "user")
              , ("parts", Json.arr [Json.obj [("text", Json.str prompt)]]) ] ])
      , ("generationConfig", Json.obj
          [ ("temperature", Json.num cfg.llm.temperature)
          , ("maxOutputTokens", Json.num (cfg.llm.max_tokens : ℚ))
          , ("topP", Json.num (95/100))
          , ("topK", Json.num 40) ]) ] }

/-- Whether a JSON list element equals the Python string `needle` under
Python `==` (only a JSON string of the same content does). -/
def isStrEq (needle : String) : Json → Bool
  | Json.str s => s == needle
  | _ => false

/-- Python `len(v)`: character count of a string, element count of a list,
key count of a dict; `TypeError` (modelled `none`) on numbers, booleans and
null. -/
def pyLen : Json → Option Nat
  | Json.str s => some s.data.length
  | Json.arr xs => some xs.length
  | Json.obj fields => some fields.length
  | _ => none

/-- Python `needle in v` for a string needle: substring test on a string,
`==`-membership on a list, key membership on a dict; `TypeError` (modelled
`none`) on numbers, booleans and null. -/
def pyInStr (needle : String) : Json → Option Bool
  | Json.str s => some (containsSub needle.data s.data)
  | Json.arr xs => some (xs.any (isStrEq needle))
  | Json.obj fields => some ((fields.lookup needle).isSome)
  | _ => none

/-- Python `v[key]` for a string key: dict lookup (a `KeyError` on an absent
key and the `TypeError` of subscripting a string or list by a string are
both exceptions, modelled `none`). -/
def pySubscriptStr (v : Json) (key : String) : Option Json :=
  match v with
  | Json.obj fields => fields.lookup key
  | _ => none

/-- Python `v[0]`: first character of a string (as a one-character string),
first element of a list; `KeyError` on a dict (JSON object keys are
strings), `IndexError` when empty, `TypeError` otherwise — all modelled
`none`. -/
def pySubscriptZero : Json → Option Json
  | Json.str s =>
    match s.data with
    | [] => none
    | c :: _ => some (Json.str (String.mk [c]))
  | Json.arr xs =>
    match xs with
    | [] => none
    | x :: _ => some x
  | _ => none

/-- Python iteration `for part in v`: the elements of a list, the characters
of a string (as one-character strings), the keys of a dict (as strings);
`TypeError` (modelled `none`) otherwise. -/
def pyIter : Json → Option (List Json)
  | Json.arr xs => some xs
  | Json.str s => some (s.data.map (fun c => Json.str (String.mk [c])))
  | Json.obj fields => some (fields.map (fun kv => Json.str kv.1))
  | _ => none

/-- Lines 245-247: the loop over the iterated parts.  For each part,
`"text" in part` follows Python membership (a raise aborts the whole
adapter call, modelled `none`); when it holds, `part["text"]` is evaluated
(a raise likewise aborts) and the value collected, in order. -/
def collectTextParts : List Json → Option (List Json)
  | [] => some []
  | part :: rest =>
    match pyInStr "text" part with
    | none => none
    | some false => collectTextParts rest
    | some true =>
      match pySubscriptStr part "text" with
      | none => none
      | some t => (collectTextParts rest).map (fun ts => t :: ts)

/-- Line 248: `"".join(text_parts)`.  Joining succeeds only when every
collected field is a string; a non-string raises `TypeError`, which the
adapter catches, yielding `None`. -/
def joinTexts : List Json → Option String
  | [] => some ""
  | Json.str s :: rest => (joinTexts rest).map (fun r => s ++ r)
  | _ => none

/-- Lines 240-251: the guard chain over a 200 response body —
`"candidates" in result and len(result["candidates"]) > 0`, then
`"content" in result["candidates"][0]`, then `"parts" in ...["content"]` —
followed by the collect-and-join loop.  Each step follows Python's dynamic
semantics (`pyInStr`, `pyLen`, subscripting, iteration); a false guard falls
through to the parse-failure branch and an exception is caught by the
adapter, both yielding `None`. -/
def googleExtract (body : Json) : Option String :=
  match pyInStr "candidates" body with
  | none => none
  | some false => none
  | some true =>
    match pySubscriptStr body "candidates" with
    | none => none
    | some cands =>
      match pyLen cands with
      | none => none
      | some n =>
        if n = 0 then none
        else
          match pySubscriptZero cands with
          | none => none
          | some c0 =>
            match pyInStr "content" c0 with
            | none => none
            | some false => none
            | some true =>
              match pySubscriptStr c0 "content" with
              | none => none
              | some content =>
                match pyInStr "parts" content with
                | none => none
                | some false => none
                | some true =>
                  match pySubscriptStr content "parts" with
                  | none => none
                  | some parts =>
                    match pyIter parts with
                    | none => none
                    | some items =>
                      match collectTextParts items with
                      | none => none
                      | some texts => joinTexts texts

/-- Modelled from the spec: "response text assembled by concatenating every
`text` field found under `candidates[0].content.parts`", written as a direct
path lookup followed by filtering the parts for their `text` fields. -/
def specGoogleResponseText (body : Json) : Option String :=
  ((jGet body "candidates").bind (fun cands => jIndex cands 0)).bind
    (fun c0 => (jGet c0 "content").bind
      (fun content => (jGet content "parts").bind
        (fun parts =>
          match parts with
          | Json.arr ps => joinTexts (ps.filterMap (fun p => jGet p "text"))
          | _ => none)))

/-- Whether a JSON value is an object. -/
def isObj : Json → Bool
  | Json.obj _ => true
  | _ => false

/-- The response shapes the provider documents: an object body whose
optional `candidates` value is an array, whose first candidate and its
`content` are objects, whose `parts` value is an array all of whose parts
are objects.  Off-shape bodies exercise Python's dynamic container
semantics instead of the documented parse. -/
def documentedShape (body : Json) : Bool :=
  match body with
  | Json.obj fields =>
    match fields.lookup "candidates" with
    | none => true
    | some (Json.arr []) => true
    | some (Json.arr (c0 :: _)) =>
      match c0 with
      | Json.obj c0fields =>
        match c0fields.lookup "content" with
        | none => true
        | some (Json.obj cvfields) =>
          match cvfields.lookup "parts" with
          | none => true
          | some (Json.arr ps) => ps.all isObj
          | some _ => false
        | some _ => false
      | _ => false
    | some _ => false
  | _ => false

/-- Lines 205-258: `_call_google_api`.  The credential is read with
`config["llm"].get("google_api_key", "")` (line 207), so an absent entry is
treated exactly like an empty one; an empty key returns `None` with no
network traffic; otherwise one POST is made and only a response with status
exactly 200 reaches the parsing chain. -/
def _call_google_api (cfg : Config) (prompt : String)
    (respond : HttpRequest → HttpOutcome) : AdapterTrace :=
  let api_key := cfg.llm.google_api_key.getD ""
  if api_key = "" then { outcome := CallOutcome.returns none, request := none }
  else
    let req := googleRequest cfg prompt api_key
    match respond req with
    | HttpOutcome.exn => { outcome := CallOutcome.returns none, request := some req }
    | HttpOutcome.response status body =>
      if status = 200 then
        { outcome := CallOutcome.returns (googleExtract body), request := some req }
      else { outcome := CallOutcome.returns none, request := some req }

/-- Lines 96-122: `generate_memo`.  Renders the prompt from
`config["templates"]["default"]`, dispatches on the provider string, and
returns the adapter result unchanged (the final `if result:` only chooses a
log message); an unsupported provider yields `None`.  An exception escaping
an adapter propagates, as `generate_memo` has no handler. -/
def generate_memo (cfg : Config) (respond : HttpRequest → HttpOutcome)
    (transcription : String) : CallOutcome (Option String) :=
  let prompt := renderPrompt cfg.templates_default transcription
  if cfg.llm.provider = "openai" then (_call_openai_api cfg prompt respond).outcome
  else if cfg.llm.provider = "anthropic" then (_call_anthropic_api cfg prompt respond).outcome
  else if cfg.llm.provider = "google" then (_call_google_api cfg prompt respond).outcome
  else CallOutcome.returns none

/-- POSIX `os.path.splitext`: split at the last dot of the final path
component, unless the characters between the component start and that dot
are all dots (so names like `.bashrc` keep their dot). -/
def lastIndexOfAux (c : Char) : List Char → Nat → Int → Int
  | [], _, best => best
  | x :: xs, i, best => lastIndexOfAux c xs (i + 1) (if x = c then (i : Int) else best)

/-- Python `s.rfind(c)`: index of the last occurrence, `-1` when absent. -/
def lastIndexOf (c : Char) (l : List Char) : Int :=
  lastIndexOfAux c l 0 (-1)

/-- `os.path.splitext(p)` on POSIX paths (separator `/`). -/
def splitext (p : String) : String × String :=
  let l := p.data
  let sepIndex := lastIndexOf '/' l
  let dotIndex := lastIndexOf '.' l
  if dotIndex > sepIndex then
    let stem := (l.take dotIndex.toNat).drop (sepIndex + 1).toNat
    if stem.any (fun ch => ch ≠ '.') then
      (String.mk (l.take dotIndex.toNat), String.mk (l.drop dotIndex.toNat))
    else (p, "")
  else (p, "")

/-- Outcome of reading the input transcript file. -/
inductive FileRead where
  | notFound
  | ioError
  | content (text : String)

/-- Observable behaviour of one `generate_memo_from_file` call: the Python
return value, whether the output file was opened for writing at all, and the
path/contents pair when the write completed. -/
structure FileResult where
  result : Option String
  writeAttempted : Bool
  written : Option (String × String)
deriving DecidableEq

/-- Lines 65-94: `generate_memo_from_file`.  Reads the input file, derives
the default output path `splitext(input)[0] + "_memo.txt"` when none is
given, generates the memo, and writes it only when the memo is truthy
(non-`None` and non-empty).  The whole body sits in `try/except`, so a read
failure, an exception escaping generation, or a write failure all surface as
a `None` return. -/
def generate_memo_from_file (cfg : Config) (respond : HttpRequest → HttpOutcome)
    (readResult : FileRead) (input_file : String) (output_file : Option String)
    (writeSucceeds : Bool) : FileResult :=
  match readResult with
  | FileRead.notFound => { result := none, writeAttempted := false, written := none }
  | FileRead.ioError => { result := none, writeAttempted := false, written := none }
  | FileRead.content transcription =>
    let out := output_file.getD ((splitext input_file).1 ++ "_memo.txt")
    match generate_memo cfg respond transcription with
    | CallOutcome.raises => { result := none, writeAttempted := false, written := none }
    | CallOutcome.returns none => { result := none, writeAttempted := false, written := none }
    | CallOutcome.returns (some memo) =>
      if memo = "" then { result := none, writeAttempted := false, written := none }
      else if writeSucceeds then
        { result := some memo, writeAttempted := true, written := some (out, memo) }
      else { result := none, writeAttempted := true, written := none }

/-! Concrete fixtures used by witnesses and counterexamples. -/

/-- An OpenAI configuration with a non-empty key and a simple template. -/
def cfgTest : Config :=
  { defaultConfig with
    llm := { defaultConfig.llm with api_key := some "sk-test" }
  , templates_default := "Summarize:\n{transcription}" }

/-- A successful OpenAI chat-completions response body. -/
def openaiOkBody : Json :=
  Json.obj [("choices", Json.arr
    [Json.obj [("message", Json.obj [("content", Json.str "Meeting summary.")])]])]

/-- A network that answers every request with a 200 OpenAI response carrying
the text `"Meeting summary."`. -/
def respondTest : HttpRequest → HttpOutcome :=
  fun _ => HttpOutcome.response 200 openaiOkBody

/-- A network that answers with a 200 OpenAI response whose generated text is
the empty string. -/
def respondEmpty : HttpRequest → HttpOutcome :=
  fun _ => HttpOutcome.response 200
    (Json.obj [("choices", Json.arr
      [Json.obj [("message", Json.obj [("content", Json.str "")])]])])

/-- An Anthropic configuration with a non-empty key. -/
def cfgAnth : Config :=
  { defaultConfig with
    llm := { defaultConfig.llm with provider := "anthropic", api_key := some "sk-ant" } }

/-- A network that rejects every request with HTTP 401. -/
def respond401 : HttpRequest → HttpOutcome :=
  fun _ => HttpOutcome.response 401 (Json.str "unauthorized")

/-- A configuration whose `llm` dictionary has no `api_key` entry at all. -/
def cfgNoApiKey : Config :=
  { defaultConfig with llm := { defaultConfig.llm with api_key := none } }

/-- A successful Anthropic messages response body with text `"ok"`. -/
def anthOkBody : Json :=
  Json.obj [("content", Json.arr [Json.obj [("text", Json.str "ok")]])]

/-- A network that answers every request with a 200 Anthropic response. -/
def respondAnthOk : HttpRequest → HttpOutcome :=
  fun _ => HttpOutcome.response 200 anthOkBody

/-- A Google configuration with a non-empty Google key. -/
def cfgGoogle : Config :=
  { defaultConfig with
    llm := { defaultConfig.llm with provider := "google", google_api_key := some "gk" } }

/-- A Google generate-content response body whose
`candidates[0].content.parts` holds two text parts. -/
def sampleGoogleBody : Json :=
  Json.obj [("candidates", Json.arr
    [Json.obj [("content", Json.obj [("parts", Json.arr
      [ Json.obj [("text", Json.str "Meeting ")]
      , Json.obj [("text", Json.str "summary.")] ])])]])]

/-- A Google response body whose `parts` value is a JSON string rather than
the documented array of parts: Python iterates its characters, finds no
`"text"`, and returns the empty string rather than the failure value. -/
def strPartsBody : Json :=
  Json.obj [("candidates", Json.arr
    [Json.obj [("content", Json.obj [("parts", Json.str "x")])]])]

/-! Helper lemmas about the `str.replace` embedding. -/

theorem joinPieces_cons_head (sep : List Char) (c : Char) (h : List Char)
    (rest : List (List Char)) :
    joinPieces sep ((c :: h) :: rest) = c :: joinPieces sep (h :: rest) := by
  cases rest <;> rfl

/-- The replacing scan and the splitting scan agree: replacement joins the
split pieces with the replacement text. -/
theorem pyReplaceGo_eq_joinPieces (pat rep : List Char) (hpat : pat ≠ []) :
    ∀ (k : Nat) (l : List Char) (n : Nat), l.length ≤ k → l.length ≤ n →
      pyReplaceGo pat rep l n
        = joinPieces rep ((splitOnSubGo pat l n).1 :: (splitOnSubGo pat l n).2) := by
  have hp1 : 1 ≤ pat.length := List.length_pos.mpr hpat
  intro k
  induction k with
  | zero =>
    intro l n hk _
    have hl : l = [] := List.eq_nil_of_length_eq_zero (Nat.le_zero.mp hk)
    subst hl
    cases n <;> rfl
  | succ k ih =>
    intro l n hk hn
    cases l with
    | nil => cases n <;> rfl
    | cons c cs =>
      simp only [List.length_cons] at hk hn
      cases n with
      | zero => omega
      | succ n =>
        simp only [pyReplaceGo, splitOnSubGo]
        by_cases hpre : pat.isPrefixOf (c :: cs) = true
        · rw [if_pos hpre, if_pos hpre]
          have hdk : (List.drop pat.length (c :: cs)).length ≤ k := by
            simp only [List.length_drop, List.length_cons]; omega
          have hdn : (List.drop pat.length (c :: cs)).length ≤ n := by
            simp only [List.length_drop, List.length_cons]; omega
          rw [ih (List.drop pat.length (c :: cs)) n hdk hdn]
          rfl
        · rw [if_neg hpre, if_neg hpre]
          have hck : cs.length ≤ k := by omega
          have hcn : cs.length ≤ n := by omega
          rw [ih cs n hck hcn]
          exact (joinPieces_cons_head rep c _ _).symm

/-- Replacing the pattern by itself is the identity. -/
theorem pyReplaceGo_self (pat : List Char) (hpat : pat ≠ []) :
    ∀ (k : Nat) (l : List Char) (n : Nat), l.length ≤ k → l.length ≤ n →
      pyReplaceGo pat pat l n = l := by
  have hp1 : 1 ≤ pat.length := List.length_pos.mpr hpat
  intro k
  induction k with
  | zero =>
    intro l n hk _
    have hl : l = [] := List.eq_nil_of_length_eq_zero (Nat.le_zero.mp hk)
    subst hl
    cases n <;> rfl
  | succ k ih =>
    intro l n hk hn
    cases l with
    | nil => cases n <;> rfl
    | cons c cs =>
      simp only [List.length_cons] at hk hn
      cases n with
      | zero => omega
      | succ n =>
        simp only [pyReplaceGo]
        by_cases hpre : pat.isPrefixOf (c :: cs) = true
        · rw [if_pos hpre]
          obtain ⟨t, ht⟩ := List.isPrefixOf_iff_prefix.mp hpre
          have hlt : pat.length + t.length = cs.length + 1 := by
            have := congrArg List.length ht
            simpa [List.length_append] using this
          have hdrop : List.drop pat.length (c :: cs) = t := by
            rw [← ht]; exact List.drop_left pat t
          have htk : t.length ≤ k := by omega
          have htn : t.length ≤ n := by omega
          rw [hdrop, ih t n htk htn]
          exact ht
        · have hck : cs.length ≤ k := by omega
          have hcn : cs.length ≤ n := by omega
          rw [if_neg hpre, ih cs n hck hcn]

/-- The head piece of the split is a prefix of the input. -/
theorem splitOnSubGo_head_prefix (pat : List Char) :
    ∀ (k : Nat) (l : List Char) (n : Nat), l.length ≤ k →
      (splitOnSubGo pat l n).1 <+: l := by
  intro k
  induction k with
  | zero =>
    intro l n hk
    have hl : l = [] := List.eq_nil_of_length_eq_zero (Nat.le_zero.mp hk)
    subst hl
    cases n <;> exact List.nil_prefix
  | succ k ih =>
    intro l n hk
    cases l with
    | nil => cases n <;> exact List.nil_prefix
    | cons c cs =>
      simp only [List.length_cons] at hk
      cases n with
      | zero => exact List.prefix_refl _
      | succ n =>
        simp only [splitOnSubGo]
        by_cases hpre : pat.isPrefixOf (c :: cs) = true
        · rw [if_pos hpre]; exact List.nil_prefix
        · rw [if_neg hpre]
          exact List.cons_prefix_cons.mpr ⟨rfl, ih cs n (by omega)⟩

/-- No piece of the split contains the pattern. -/
theorem splitOnSubGo_not_contains (pat : List Char) (hpat : pat ≠ []) :
    ∀ (k : Nat) (l : List Char) (n : Nat), l.length ≤ k → l.length ≤ n →
      containsSub pat (splitOnSubGo pat l n).1 = false
      ∧ ∀ piece ∈ (splitOnSubGo pat l n).2, containsSub pat piece = false := by
  have hp1 : 1 ≤ pat.length := List.length_pos.mpr hpat
  intro k
  induction k with
  | zero =>
    intro l n hk _
    have hl : l = [] := List.eq_nil_of_length_eq_zero (Nat.le_zero.mp hk)
    subst hl
    cases n <;> exact ⟨rfl, fun piece hmem => absurd hmem (List.not_mem_nil piece)⟩
  | succ k ih =>
    intro l n hk hn
    cases l with
    | nil =>
      cases n <;> exact ⟨rfl, fun piece hmem => absurd hmem (List.not_mem_nil piece)⟩
    | cons c cs =>
      simp only [List.length_cons] at hk hn
      cases n with
      | zero => omega
      | succ n =>
        simp only [splitOnSubGo]
        by_cases hpre : pat.isPrefixOf (c :: cs) = true
        · rw [if_pos hpre]
          refine ⟨rfl, ?_⟩
          intro piece hmem
          have hdk : (List.drop pat.length (c :: cs)).length ≤ k := by
            simp only [List.length_drop, List.length_cons]
            omega
          have hdn : (List.drop pat.length (c :: cs)).length ≤ n := by
            simp only [List.length_drop, List.length_cons]
            omega
          rcases List.mem_cons.mp hmem with hpc | hpc
          · subst hpc
            exact (ih (List.drop pat.length (c :: cs)) n hdk hdn).1
          · exact (ih (List.drop pat.length (c :: cs)) n hdk hdn).2 piece hpc
        · rw [if_neg hpre]
          have htail := ih cs n (by omega) (by omega)
          refine ⟨?_, htail.2⟩
          simp only [containsSub, Bool.or_eq_false_iff]
          refine ⟨?_, htail.1⟩
          cases hb : pat.isPrefixOf (c :: (splitOnSubGo pat cs n).1) with
          | false => rfl
          | true =>
            exfalso
            have hpfx : pat <+: c :: (splitOnSubGo pat cs n).1 :=
              List.isPrefixOf_iff_prefix.mp hb
            have hhead : (splitOnSubGo pat cs n).1 <+: cs :=
              splitOnSubGo_head_prefix pat cs.length cs n le_rfl
            have : pat <+: c :: cs :=
              hpfx.trans (List.cons_prefix_cons.mpr ⟨rfl, hhead⟩)
            exact hpre (List.isPrefixOf_iff_prefix.mpr this)

/-! Claim theorems. -/

/-- C4: for every template string and every transcript string, rendering the
prompt replaces every literal occurrence of the placeholder token
`"{transcription}"` with the transcript, as a plain substring replacement:
the template decomposes greedily, left to right and non-overlapping, into
occurrence-free pieces joined by the token, and rendering joins exactly
those pieces with the transcript instead; in particular the token written
twice with transcript `"Y"` renders to `"YY"`. -/
theorem render_replaces_every_occurrence (template t : String) :
    renderPrompt template t
        = String.mk (joinPieces t.data
            (splitOnSub "{transcription}".data template.data))
    ∧ joinPieces "{transcription}".data
        (splitOnSub "{transcription}".data template.data) = template.data
    ∧ (∀ piece ∈ splitOnSub "{transcription}".data template.data,
        containsSub "{transcription}".data piece = false)
    ∧ renderPrompt "{transcription}{transcription}" "Y" = "YY" := by
  have hpat : "{transcription}".data ≠ [] := by decide
  refine ⟨?_, ?_, ?_, by decide⟩
  · exact congrArg String.mk
      (pyReplaceGo_eq_joinPieces "{transcription}".data t.data hpat
        template.data.length template.data template.data.length le_rfl le_rfl)
  · rw [show splitOnSub "{transcription}".data template.data
        = (splitOnSubGo "{transcription}".data template.data template.data.length).1
          :: (splitOnSubGo "{transcription}".data template.data template.data.length).2
      from rfl,
      ← pyReplaceGo_eq_joinPieces "{transcription}".data "{transcription}".data hpat
        template.data.length template.data template.data.length le_rfl le_rfl]
    exact pyReplaceGo_self "{transcription}".data hpat
      template.data.length template.data template.data.length le_rfl le_rfl
  · intro piece hmem
    rcases List.mem_cons.mp hmem with hpc | hpc
    · subst hpc
      exact (splitOnSubGo_not_contains "{transcription}".data hpat
        template.data.length template.data template.data.length le_rfl le_rfl).1
    · exact (splitOnSubGo_not_contains "{transcription}".data hpat
        template.data.length template.data template.data.length le_rfl le_rfl).2
        piece hpc

/-- Witness for C4 at a concrete mixed template — literal text followed by
the token — and a concrete transcript. -/
theorem render_replaces_every_occurrence_witness :
    renderPrompt "Summarize:\n{transcription}" "Alice: hi" = "Summarize:\nAlice: hi"
    ∧ containsSub "{transcription}".data "Summarize:\n".data = false :=
  ⟨((render_replaces_every_occurrence "Summarize:\n{transcription}" "Alice: hi").1).trans
      (by decide),
   (render_replaces_every_occurrence "Summarize:\n{transcription}" "Alice: hi").2.2.1
      "Summarize:\n".data (by decide)⟩

/-- C5: loading a configuration file that is missing or holds malformed JSON
returns the built-in default configuration — provider `openai` (the first
provider), empty credentials, the default template — instead of raising. -/
theorem load_config_defaults_on_missing_or_malformed :
    _load_config ConfigRead.missing = defaultConfig
    ∧ _load_config ConfigRead.malformed = defaultConfig
    ∧ defaultConfig.llm.provider = "openai"
    ∧ defaultConfig.llm.api_key = some ""
    ∧ defaultConfig.llm.google_api_key = none
    ∧ defaultConfig.templates_default
        = "以下は会議の文字起こしです。これを元に議事録を作成してください。\n\n{transcription}" :=
  ⟨rfl, rfl, rfl, rfl, rfl, rfl⟩

/-- C6 counterexample: a failed write makes `save_config` return to the
caller exactly what a successful save returns (Python `None`, nothing
raised), so no success-or-failure result reaches the caller. -/
theorem save_config_silent_counterexample :
    (save_config false).1 = CallOutcome.returns ()
    ∧ (save_config false).1 = (save_config true).1 :=
  ⟨rfl, rfl⟩

/-- C6 (amended): `save_config` never raises and returns no
success-or-failure indication — the caller receives Python `None` either
way; a write failure is reported only through the error log. -/
theorem save_config_failure_only_logged (w : Bool) :
    (save_config w).1 = CallOutcome.returns ()
    ∧ (save_config w).2 = (if w then [LogLevel.info] else [LogLevel.error]) := by
  cases w <;> exact ⟨rfl, rfl⟩

/-- C9: `set_temperature` stores the clamp of its argument to `[0, 1]` —
out-of-range input silently saturates — and in particular `-5` stores `0`,
`1.7` stores `1`, and `0.4` stores `0.4`. -/
theorem set_temperature_clamps (cfg : Config) (x : ℚ) :
    ((set_temperature cfg x).llm.temperature
        = if x ≤ 0 then 0 else if 1 ≤ x then 1 else x)
    ∧ (set_temperature cfg (-5)).llm.temperature = 0
    ∧ (set_temperature cfg (17/10)).llm.temperature = 1
    ∧ (set_temperature cfg (2/5)).llm.temperature = 2/5 := by
  refine ⟨?_, ?_, ?_, ?_⟩
  · show max 0 (min 1 x) = _
    rcases le_or_lt x 0 with h | h
    · rw [if_pos h, min_eq_right (h.trans zero_le_one), max_eq_left h]
    · rw [if_neg (not_le.mpr h)]
      rcases le_or_lt 1 x with h1 | h1
      · rw [if_pos h1, min_eq_left h1]
        exact max_eq_right zero_le_one
      · rw [if_neg (not_le.mpr h1), min_eq_right h1.le]
        exact max_eq_right h.le
  · show max (0 : ℚ) (min 1 (-5)) = 0
    rw [min_eq_right (by norm_num : (-5 : ℚ) ≤ 1)]
    exact max_eq_left (by norm_num)
  · show max (0 : ℚ) (min 1 (17/10)) = 1
    rw [min_eq_left (by norm_num : (1 : ℚ) ≤ 17/10)]
    exact max_eq_right zero_le_one
  · show max (0 : ℚ) (min 1 (2/5)) = 2/5
    rw [min_eq_right (by norm_num : (2/5 : ℚ) ≤ 1)]
    exact max_eq_right (by norm_num)

/-- C3 counterexample: when the `api_key` entry is absent (a missing
credential), the OpenAI and Anthropic adapters do not return the
missing-credential failure — the `config["llm"]["api_key"]` lookup sits
before the `try` block, so an uncaught `KeyError` escapes (no HTTP request
is issued either way). -/
theorem missing_credential_raises_counterexample :
    (_call_openai_api cfgNoApiKey "p" (fun _ => HttpOutcome.exn)).outcome
        = CallOutcome.raises
    ∧ (_call_openai_api cfgNoApiKey "p" (fun _ => HttpOutcome.exn)).request = none
    ∧ (_call_anthropic_api cfgNoApiKey "p" (fun _ => HttpOutcome.exn)).outcome
        = CallOutcome.raises
    ∧ (_call_anthropic_api cfgNoApiKey "p" (fun _ => HttpOutcome.exn)).request = none
    ∧ (CallOutcome.raises : CallOutcome (Option String)) ≠ CallOutcome.returns none :=
  ⟨rfl, rfl, rfl, rfl, by decide⟩

/-- C3 (amended): with an empty-string credential every adapter returns the
failure value without issuing any HTTP request; a missing credential is
handled the same way only by the Google adapter (whose lookup defaults an
absent key to the empty string), while the OpenAI and Anthropic adapters
raise an uncaught lookup error — still without any HTTP request. -/
theorem missing_credential_behavior (cfg : Config) (prompt : String)
    (respond : HttpRequest → HttpOutcome) :
    (cfg.llm.api_key = some "" →
      _call_openai_api cfg prompt respond
          = { outcome := CallOutcome.returns none, request := none }
      ∧ _call_anthropic_api cfg prompt respond
          = { outcome := CallOutcome.returns none, request := none })
    ∧ (cfg.llm.api_key = none →
      _call_openai_api cfg prompt respond
          = { outcome := CallOutcome.raises, request := none }
      ∧ _call_anthropic_api cfg prompt respond
          = { outcome := CallOutcome.raises, request := none })
    ∧ (cfg.llm.google_api_key.getD "" = "" →
      _call_google_api cfg prompt respond
          = { outcome := CallOutcome.returns none, request := none }) := by
  refine ⟨fun h => ?_, fun h => ?_, fun h => ?_⟩
  · constructor <;> simp [_call_openai_api, _call_anthropic_api, h]
  · constructor <;> simp [_call_openai_api, _call_anthropic_api, h]
  · simp [_call_google_api, h]

/-- Witness for C3 at concrete configurations: the default configuration has
an empty `api_key` and no `google_api_key`, and `cfgNoApiKey` has no
`api_key` entry. -/
theorem missing_credential_behavior_witness :
    _call_openai_api defaultConfig "p" respondTest
        = { outcome := CallOutcome.returns none, request := none }
    ∧ _call_google_api defaultConfig "p" respondTest
        = { outcome := CallOutcome.returns none, request := none }
    ∧ _call_openai_api cfgNoApiKey "p" respondTest
        = { outcome := CallOutcome.raises, request := none } :=
  ⟨((missing_credential_behavior defaultConfig "p" respondTest).1 rfl).1,
   (missing_credential_behavior defaultConfig "p" respondTest).2.2 rfl,
   ((missing_credential_behavior cfgNoApiKey "p" respondTest).2.1 rfl).1⟩

/-- C7 counterexample: `set_api_key` — the only way to set the OpenAI
credential — also changes the credential consulted by the Anthropic adapter
(both read `config["llm"]["api_key"]`): on the same network, the Anthropic
call goes from the missing-credential failure to a successful call. -/
theorem shared_api_key_counterexample :
    (_call_anthropic_api defaultConfig "p" respondAnthOk).outcome
        = CallOutcome.returns none
    ∧ (_call_anthropic_api defaultConfig "p" respondAnthOk).request = none
    ∧ (_call_anthropic_api (set_api_key defaultConfig "sk-openai") "p" respondAnthOk).outcome
        = CallOutcome.returns (some "ok")
    ∧ (CallOutcome.returns (some "ok") : CallOutcome (Option String))
        ≠ CallOutcome.returns none :=
  ⟨rfl, rfl, rfl, by decide⟩

/-- Push the `request` projection through a conditional. -/
theorem request_ite {c : Prop} [Decidable c] (t e : AdapterTrace) :
    (if c then t else e).request = if c then t.request else e.request := by
  split <;> rfl

/-- C7 (amended): credentials occupy two slots, not a per-provider map.
`set_google_api_key` leaves the OpenAI and Anthropic adapters entirely
unchanged and `set_api_key` leaves the Google adapter entirely unchanged,
but the OpenAI and Anthropic adapters share the single `api_key` slot:
after `set_api_key` both issue a request exactly when the new key is
non-empty, so they can never hold different credentials. -/
theorem credential_slots (cfg : Config) (k prompt : String)
    (respond : HttpRequest → HttpOutcome) :
    _call_openai_api (set_google_api_key cfg k) prompt respond
        = _call_openai_api cfg prompt respond
    ∧ _call_anthropic_api (set_google_api_key cfg k) prompt respond
        = _call_anthropic_api cfg prompt respond
    ∧ _call_google_api (set_api_key cfg k) prompt respond
        = _call_google_api cfg prompt respond
    ∧ (_call_openai_api (set_api_key cfg k) prompt respond).request.isSome = (k != "")
    ∧ (_call_anthropic_api (set_api_key cfg k) prompt respond).request.isSome = (k != "") := by
  refine ⟨rfl, rfl, rfl, ?_, ?_⟩
  · by_cases hk : k = ""
    · subst hk; rfl
    · have hkey : (set_api_key cfg k).llm.api_key = some k := rfl
      simp only [_call_openai_api, hkey]
      rw [if_neg hk]
      have hbne : (k != "") = true := bne_iff_ne.mpr hk
      cases respond (openaiRequest (set_api_key cfg k) prompt k) with
      | exn => simp [hbne]
      | response status body => rw [hbne, request_ite]; simp
  · by_cases hk : k = ""
    · subst hk; rfl
    · have hkey : (set_api_key cfg k).llm.api_key = some k := rfl
      simp only [_call_anthropic_api, hkey]
      rw [if_neg hk]
      have hbne : (k != "") = true := bne_iff_ne.mpr hk
      cases respond (anthropicRequest (set_api_key cfg k) prompt k) with
      | exn => simp [hbne]
      | response status body => rw [hbne, request_ite]; simp

/-- Over parts that are all objects, the source loop collects exactly the
values of the `"text"` keys, in order: membership is then a key test and
subscripting a lookup, so nothing raises. -/
theorem collectTextParts_obj :
    ∀ parts : List Json, parts.all isObj = true →
      collectTextParts parts = some (parts.filterMap (fun p => jGet p "text")) := by
  intro parts
  induction parts with
  | nil => intro _; rfl
  | cons p rest ih =>
    intro h
    simp only [List.all_cons, Bool.and_eq_true] at h
    cases p with
    | null => simp [isObj] at h
    | bool b => simp [isObj] at h
    | num q => simp [isObj] at h
    | str s => simp [isObj] at h
    | arr xs => simp [isObj] at h
    | obj fields =>
      cases hl : fields.lookup "text" with
      | none =>
        simp [collectTextParts, pyInStr, hl, ih h.2, List.filterMap_cons, jGet]
      | some t =>
        simp [collectTextParts, pyInStr, pySubscriptStr, hl, ih h.2,
          List.filterMap_cons, jGet]

/-- On bodies of the documented shape, the source's guard chain computes
exactly the spec-modelled path lookup and concatenation. -/
theorem googleExtract_eq_spec (body : Json) (hshape : documentedShape body = true) :
    googleExtract body = specGoogleResponseText body := by
  cases body with
  | null => simp [documentedShape] at hshape
  | bool b => simp [documentedShape] at hshape
  | num q => simp [documentedShape] at hshape
  | str s => simp [documentedShape] at hshape
  | arr xs => simp [documentedShape] at hshape
  | obj fields =>
    cases hc : fields.lookup "candidates" with
    | none =>
      simp [googleExtract, specGoogleResponseText, pyInStr, jGet, hc]
    | some cands =>
      simp only [documentedShape, hc] at hshape
      cases cands with
      | null => exact absurd hshape (by simp)
      | bool b => exact absurd hshape (by simp)
      | num q => exact absurd hshape (by simp)
      | str s => exact absurd hshape (by simp)
      | obj cfields => exact absurd hshape (by simp)
      | arr elems =>
        cases elems with
        | nil =>
          simp [googleExtract, specGoogleResponseText, pyInStr, pyLen,
            pySubscriptStr, jGet, jIndex, hc]
        | cons c0 rest =>
          cases c0 with
          | null => exact absurd hshape (by simp)
          | bool b => exact absurd hshape (by simp)
          | num q => exact absurd hshape (by simp)
          | str s => exact absurd hshape (by simp)
          | arr xs => exact absurd hshape (by simp)
          | obj c0fields =>
            cases hcon : c0fields.lookup "content" with
            | none =>
              simp [googleExtract, specGoogleResponseText, pyInStr, pyLen,
                pySubscriptStr, pySubscriptZero, jGet, jIndex, hc, hcon]
            | some content =>
              simp only [hcon] at hshape
              cases content with
              | null => exact absurd hshape (by simp)
              | bool b => exact absurd hshape (by simp)
              | num q => exact absurd hshape (by simp)
              | str s => exact absurd hshape (by simp)
              | arr xs => exact absurd hshape (by simp)
              | obj cvfields =>
                cases hp : cvfields.lookup "parts" with
                | none =>
                  simp [googleExtract, specGoogleResponseText, pyInStr, pyLen,
                    pySubscriptStr, pySubscriptZero, jGet, jIndex, hc, hcon, hp]
                | some parts =>
                  simp only [hp] at hshape
                  cases parts with
                  | null => exact absurd hshape (by simp)
                  | bool b => exact absurd hshape (by simp)
                  | num q => exact absurd hshape (by simp)
                  | str s => exact absurd hshape (by simp)
                  | obj pfields => exact absurd hshape (by simp)
                  | arr ps =>
                    have hall : ps.all isObj = true := by simpa using hshape
                    simp [googleExtract, specGoogleResponseText, pyInStr, pyLen,
                      pySubscriptStr, pySubscriptZero, pyIter, jGet, jIndex,
                      hc, hcon, hp, collectTextParts_obj ps hall]

/-- C8 counterexample: the claim fails twice on the code.  A 2xx (but
non-200) response whose body does contain `candidates[0].content.parts` is
not parsed — the adapter returns the failure value instead of the
concatenated text.  And a 200 response whose body lacks the documented
structure (its `parts` is a JSON string) does not return a failure — Python
iterates the string, collects nothing, and the adapter returns the empty
string. -/
theorem google_parse_counterexample :
    (_call_google_api cfgGoogle "p"
        (fun _ => HttpOutcome.response 201 sampleGoogleBody)).outcome
      = CallOutcome.returns none
    ∧ specGoogleResponseText sampleGoogleBody = some "Meeting summary."
    ∧ (CallOutcome.returns none : CallOutcome (Option String))
        ≠ CallOutcome.returns (some "Meeting summary.")
    ∧ (_call_google_api cfgGoogle "p"
        (fun _ => HttpOutcome.response 200 strPartsBody)).outcome
      = CallOutcome.returns (some "")
    ∧ (CallOutcome.returns (some "") : CallOutcome (Option String))
        ≠ CallOutcome.returns none :=
  ⟨rfl, by decide, by decide, by decide, by decide⟩

/-- C8 (amended): for every response with HTTP status exactly 200 (the only
status the source parses) whose body is of the documented shape, the Google
adapter returns the concatenation, in order, of every `text` field found
among `candidates[0].content.parts`, and the failure value when the body
lacks that path — i.e. exactly the spec-modelled
`specGoogleResponseText`. -/
theorem google_parse_on_200 (cfg : Config) (prompt key : String) (body : Json)
    (hkey : cfg.llm.google_api_key = some key) (hne : key ≠ "")
    (hshape : documentedShape body = true) :
    (_call_google_api cfg prompt (fun _ => HttpOutcome.response 200 body)).outcome
      = CallOutcome.returns (specGoogleResponseText body) := by
  simp [_call_google_api, hkey, hne, googleExtract_eq_spec body hshape]

/-- Witness for C8 at a concrete keyed configuration and response body. -/
theorem google_parse_on_200_witness :
    (_call_google_api cfgGoogle "p"
        (fun _ => HttpOutcome.response 200 sampleGoogleBody)).outcome
      = CallOutcome.returns (some "Meeting summary.") :=
  (google_parse_on_200 cfgGoogle "p" "gk" sampleGoogleBody rfl (by decide)
      (by decide)).trans
    (by decide)

/-- C1 counterexample: a generation call that returns text — the empty
string — after which `generate_memo_from_file` does not write that text and
does not return success: the `if memo:` truthiness test rejects `""`, so
nothing is written and `None` is returned. -/
theorem generate_memo_from_file_empty_text_counterexample :
    generate_memo cfgTest respondEmpty "t" = CallOutcome.returns (some "")
    ∧ generate_memo_from_file cfgTest respondEmpty (FileRead.content "t")
        "in.txt" none true
      = { result := none, writeAttempted := false, written := none } :=
  ⟨rfl, rfl⟩

/-- C1 (amended): for every input file that reads successfully and every
generation call that returns non-empty text, `generate_memo_from_file`
writes exactly that text to the output path — defaulting to the input path
with its extension removed plus `"_memo.txt"` — and returns it; if the
write itself fails after a successful read and generation, the call still
returns a failure. -/
theorem generate_memo_from_file_writes_nonempty (cfg : Config)
    (respond : HttpRequest → HttpOutcome) (input content m : String)
    (hgen : generate_memo cfg respond content = CallOutcome.returns (some m))
    (hm : m ≠ "") :
    (∀ outp : Option String,
      generate_memo_from_file cfg respond (FileRead.content content) input outp true
        = { result := some m, writeAttempted := true
          , written := some (outp.getD ((splitext input).1 ++ "_memo.txt"), m) })
    ∧ (∀ outp : Option String,
      generate_memo_from_file cfg respond (FileRead.content content) input outp false
        = { result := none, writeAttempted := true, written := none }) := by
  constructor <;> intro outp <;> simp [generate_memo_from_file, hgen, hm]

/-- Witness for C1: the spec's end-to-end example — transcript
`"Alice: hi\nBob: hello"`, template `"Summarize:\n{transcription}"`, a
provider answering `"Meeting summary."` — written to the derived path
`transcript_memo.txt`. -/
theorem generate_memo_from_file_writes_nonempty_witness :
    generate_memo_from_file cfgTest respondTest
        (FileRead.content "Alice: hi\nBob: hello") "transcript.txt" none true
      = { result := some "Meeting summary.", writeAttempted := true
        , written := some ("transcript_memo.txt", "Meeting summary.") } :=
  ((generate_memo_from_file_writes_nonempty cfgTest respondTest "transcript.txt"
      "Alice: hi\nBob: hello" "Meeting summary." (by decide) (by decide)).1 none).trans
    (by decide)

/-- C2: when the generation step fails (the provider call returns the
failure value), `generate_memo_from_file` returns a failure and never even
opens the output file, for any explicit or defaulted output path. -/
theorem generate_memo_failure_no_write (cfg : Config)
    (respond : HttpRequest → HttpOutcome) (input content : String)
    (hgen : generate_memo cfg respond content = CallOutcome.returns none) :
    ∀ (outp : Option String) (w : Bool),
      generate_memo_from_file cfg respond (FileRead.content content) input outp w
        = { result := none, writeAttempted := false, written := none } := by
  intro outp w
  simp [generate_memo_from_file, hgen]

/-- Witness for C2: an Anthropic configuration whose provider rejects every
request with HTTP 401 (the spec's `ProviderError{401}` scenario). -/
theorem generate_memo_failure_no_write_witness :
    generate_memo_from_file cfgAnth respond401 (FileRead.content "t")
        "in.txt" none true
      = { result := none, writeAttempted := false, written := none } :=
  generate_memo_failure_no_write cfgAnth respond401 "in.txt" "t" (by decide) none true

/-- C10 counterexample: a successfully generated empty summary is
distinguishable from a provider error at `generate_memo`, a public method:
the empty success comes back as the empty string, a provider error as
Python `None` — `generate_memo` does not treat the two identically. -/
theorem empty_memo_distinguishable_counterexample :
    generate_memo cfgTest respondEmpty "t" = CallOutcome.returns (some "")
    ∧ generate_memo cfgTest respond401 "t" = CallOutcome.returns none
    ∧ (CallOutcome.returns (some "") : CallOutcome (Option String))
        ≠ CallOutcome.returns none :=
  ⟨rfl, rfl, by decide⟩

/-- C10 (amended): `generate_memo_from_file` treats an adapter success whose
text is the empty string exactly like a failed call — it returns a failure
and writes no output file, indistinguishable there from a provider error —
while `generate_memo` itself returns the empty string unchanged, which
differs from the `None` of a failed provider call. -/
theorem empty_memo_treated_as_failure_in_file_pipeline (cfg : Config)
    (respond : HttpRequest → HttpOutcome) (input content : String)
    (hgen : generate_memo cfg respond content = CallOutcome.returns (some "")) :
    (∀ (outp : Option String) (w : Bool),
      generate_memo_from_file cfg respond (FileRead.content content) input outp w
        = { result := none, writeAttempted := false, written := none })
    ∧ generate_memo cfg respond content ≠ CallOutcome.returns none := by
  constructor
  · intro outp w
    simp [generate_memo_from_file, hgen]
  · rw [hgen]
    simp

/-- Witness for C10: the OpenAI configuration with a provider returning the
empty string. -/
theorem empty_memo_treated_as_failure_in_file_pipeline_witness :
    generate_memo_from_file cfgTest respondEmpty (FileRead.content "t")
        "in.txt" none true
      = { result := none, writeAttempted := false, written := none } :=
  (empty_memo_treated_as_failure_in_file_pipeline cfgTest respondEmpty "in.txt" "t"
      (by decide)).1 none true

end AiMemo
